import Mathlib

/-!
# Verification of the YouTube channel-to-CSV exporter

A shallow embedding of `src/main.rs`: a small Rust program that resolves a
YouTube channel handle to a channel id (`fetch_channel_id`), pages through
the channel's videos via the search endpoint (`fetch_videos`), and writes
four metadata fields per video to a CSV file (`write_to_csv`), orchestrated
by `main`.

HTTP responses are modelled as already-parsed JSON values paired with a
status code; the network is modelled as an environment supplying one
response for the resolver call and a stream of responses consumed in order
by the pagination loop (the page token only affects the request URL, which
we record in an event trace).  `unwrap` on a missing value is modelled as
an explicit `panic` outcome; Rust's `?` on `Result` is explicit
error-propagation.
-/

set_option autoImplicit false

namespace YtCsv

/-- JSON values, mirroring `serde_json::Value`.  Numbers are irrelevant to
every extraction the program performs, so they are carried as an opaque
string payload. -/
inductive Json where
  | null : Json
  | bool : Bool → Json
  | num : String → Json
  | str : String → Json
  | arr : List Json → Json
  | obj : List (String × Json) → Json
deriving Repr

/-- Key lookup in an object's field list (first match, as in a map with
unique keys). -/
def lookupField : List (String × Json) → String → Option Json
  | [], _ => none
  | (k, v) :: rest, key => if k = key then some v else lookupField rest key

/-- `Value::get(key)`: `Some` value only when `self` is an object containing
the key. -/
def Json.get : Json → String → Option Json
  | Json.obj fields, key => lookupField fields key
  | _, _ => none

/-- `value[key]` (serde_json `Index` for `&str`): the value at the key, or
`Null` when the key is absent or `self` is not an object. -/
def Json.index (j : Json) (key : String) : Json :=
  (j.get key).getD Json.null

/-- `value[i]` (serde_json `Index` for `usize`): the `i`-th array element,
or `Null` when out of range or `self` is not an array. -/
def Json.indexNat : Json → Nat → Json
  | Json.arr items, i => (items.get? i).getD Json.null
  | _, _ => Json.null

/-- `Value::as_str`: `Some` exactly for JSON strings. -/
def Json.asStr : Json → Option String
  | Json.str s => some s
  | _ => none

/-- `Value::as_array`: `Some` exactly for JSON arrays. -/
def Json.asArray : Json → Option (List Json)
  | Json.arr items => some items
  | _ => none

/-- An HTTP response: numeric status code and parsed JSON body. -/
structure Response where
  status : Nat
  body : Json
deriving Repr

/-- `StatusCode::is_success`: status in `200..=299`. -/
def statusIsSuccess (s : Nat) : Bool :=
  200 ≤ s && s ≤ 299

/-- Result of `fetch_channel_id`: `Ok(channel_id)`, `Err(msg)`, or a panic
from the unchecked `.unwrap()` on `json["items"][0]["id"].as_str()`. -/
inductive ResolverResult where
  | ok (channelId : String)
  | err (msg : String)
  | panic
deriving Repr, DecidableEq

/-- The unchecked extraction `json["items"][0]["id"].as_str()` performed by
`fetch_channel_id` on a successful body. -/
def resolverExtract (body : Json) : Option String :=
  (((body.index "items").indexNat 0).index "id").asStr

/-- `fetch_channel_id` applied to the response the server returns for the
channel-lookup request: fail on non-success status, fail on an `error`
field, panic if `items[0].id` is not a string, else return it. -/
def fetch_channel_id (resp : Response) : ResolverResult :=
  if ¬ statusIsSuccess resp.status then ResolverResult.err "API request failed"
  else if (resp.body.get "error").isSome then ResolverResult.err "Error"
  else match resolverExtract resp.body with
    | some s => ResolverResult.ok s
    | none => ResolverResult.panic

/-- One outbound HTTP request, as recorded in the run's event trace. -/
inductive Event where
  | channelsRequest (handle : String)
  | searchRequest (channelId : String) (pageToken : String)
deriving Repr, DecidableEq

/-- Outcome of the pagination loop: the accumulated videos, an error, or
`noResponse` when the environment's response stream is exhausted while the
loop still wants another page (the model's rendering of a hung request). -/
inductive ListerOutcome where
  | ok (videos : List Json)
  | err (msg : String)
  | noResponse
deriving Repr

/-- The `items` contributed by one page: `json["items"].as_array()` cloned
into the accumulator when present, nothing otherwise. -/
def pageItems (body : Json) : List Json :=
  ((body.index "items").asArray).getD []

/-- `json["nextPageToken"].as_str()` of a page body. -/
def tokenOf (body : Json) : Option String :=
  (body.index "nextPageToken").asStr

/-- The loop body of `fetch_videos`.  `pageToken` is the current token
(initially empty), `acc` the accumulated `videos`; the list of responses is
consumed one per iteration.  Returns the trace of search requests issued
and the outcome. -/
def fetch_videos_go (channelId : String) :
    String → List Json → List Response → List Event × ListerOutcome
  | pageToken, _, [] => ([Event.searchRequest channelId pageToken], ListerOutcome.noResponse)
  | pageToken, acc, resp :: rest =>
    let ev := Event.searchRequest channelId pageToken
    if ¬ statusIsSuccess resp.status then ([ev], ListerOutcome.err "API request failed")
    else if (resp.body.get "error").isSome then ([ev], ListerOutcome.err "Error")
    else
      let acc' := acc ++ pageItems resp.body
      match tokenOf resp.body with
      | some t =>
        let r := fetch_videos_go channelId t acc' rest
        (ev :: r.1, r.2)
      | none => ([ev], ListerOutcome.ok acc')

/-- `fetch_videos`: run the pagination loop from an empty token and empty
accumulator over the environment's search responses. -/
def fetch_videos (channelId : String) (pages : List Response) :
    List Event × ListerOutcome :=
  fetch_videos_go channelId "" [] pages

/-- Rust `str::replace(pat, rep)` on character lists: replace every
non-overlapping occurrence of `pat` (left to right) by `rep`.  An empty
pattern is never used by the program; we leave the string unchanged. -/
def replaceAll (pat rep : List Char) : List Char → List Char
  | [] => []
  | c :: s =>
    if pat ≠ [] ∧ pat.isPrefixOf (c :: s) then
      rep ++ replaceAll pat rep (List.drop (pat.length - 1) s)
    else
      c :: replaceAll pat rep s
termination_by s => s.length
decreasing_by
  · simp only [List.length_drop, List.length_cons]
    omega
  · simp

/-- The output path `format!("{}.csv", handle.replace("@", ""))`. -/
def csv_path (handle : String) : String :=
  String.mk (replaceAll ['@'] [] handle.data) ++ ".csv"

/-- The four CSV cells extracted from one result item:
`video["id"]["videoId"]`, `snippet["title"]`, `snippet["description"]`,
`snippet["publishedAt"]`, each `as_str().unwrap_or("")`. -/
def video_record (video : Json) : List String :=
  let snippet := video.index "snippet"
  [ (((video.index "id").index "videoId").asStr).getD ""
  , ((snippet.index "title").asStr).getD ""
  , ((snippet.index "description").asStr).getD ""
  , ((snippet.index "publishedAt").asStr).getD "" ]

/-- The header row written first by `write_to_csv`. -/
def csvHeader : List String :=
  ["Video ID", "Title", "Description", "Published At"]

/-- The file produced by a run: its path and its rows (header first), each
row a list of cells. -/
structure FileOutput where
  path : String
  rows : List (List String)
deriving Repr, DecidableEq

/-- `write_to_csv`: the file at `csv_path handle` holding the header row
followed by one record per video, in order. -/
def write_to_csv (handle : String) (videos : List Json) : FileOutput :=
  { path := csv_path handle
  , rows := csvHeader :: videos.map video_record }

/-- The environment a run consumes: the resolver's response, the stream of
search responses, and whether the file-system writes succeed. -/
structure Env where
  channelResp : Response
  searchResps : List Response
  writeSucceeds : Bool
deriving Repr

/-- The process-level outcome of `main`: `mainOk` is `Ok(())` (exit code
zero), `err` is an `Err` return (non-zero exit), `panic` an `unwrap`
failure, `stuck` the model's out-of-responses artifact. -/
inductive MainResult where
  | mainOk
  | err (msg : String)
  | panic
  | stuck
deriving Repr, DecidableEq

/-- Everything observable about one run: the outbound requests in order,
the process result, and the CSV file written (if any). -/
structure RunResult where
  events : List Event
  result : MainResult
  file : Option FileOutput
deriving Repr, DecidableEq

/-- `main`: resolve the channel id (propagating failure with `?`), then
match on `fetch_videos` — on `Ok` skip the writer when the list is empty,
otherwise write the CSV (propagating a write failure with `?`); on `Err`
print the error and fall through to `Ok(())`. -/
def run_main (handle : String) (env : Env) : RunResult :=
  let ev0 := [Event.channelsRequest handle]
  match fetch_channel_id env.channelResp with
  | ResolverResult.err m => ⟨ev0, MainResult.err m, none⟩
  | ResolverResult.panic => ⟨ev0, MainResult.panic, none⟩
  | ResolverResult.ok channelId =>
    let r := fetch_videos channelId env.searchResps
    match r.2 with
    | ListerOutcome.noResponse => ⟨ev0 ++ r.1, MainResult.stuck, none⟩
    | ListerOutcome.err _ => ⟨ev0 ++ r.1, MainResult.mainOk, none⟩
    | ListerOutcome.ok videos =>
      if videos.isEmpty then ⟨ev0 ++ r.1, MainResult.mainOk, none⟩
      else if env.writeSucceeds then
        ⟨ev0 ++ r.1, MainResult.mainOk, some (write_to_csv handle videos)⟩
      else ⟨ev0 ++ r.1, MainResult.err "write failed", none⟩

/-! ## Loop-step lemmas for `fetch_videos_go` -/

/-- A page the loop accepts: successful status and no `error` field. -/
def goodPage (resp : Response) : Prop :=
  statusIsSuccess resp.status = true ∧ resp.body.get "error" = none

theorem go_cons_badStatus (cid tok : String) (acc : List Json) (resp : Response)
    (rest : List Response) (hst : statusIsSuccess resp.status = false) :
    fetch_videos_go cid tok acc (resp :: rest) =
      ([Event.searchRequest cid tok], ListerOutcome.err "API request failed") := by
  simp [fetch_videos_go, hst]

theorem go_cons_errField (cid tok : String) (acc : List Json) (resp : Response)
    (rest : List Response) (hst : statusIsSuccess resp.status = true)
    (herr : (resp.body.get "error").isSome = true) :
    fetch_videos_go cid tok acc (resp :: rest) =
      ([Event.searchRequest cid tok], ListerOutcome.err "Error") := by
  simp [fetch_videos_go, hst, herr]

theorem go_cons_good_none (cid tok : String) (acc : List Json) (resp : Response)
    (rest : List Response) (hg : goodPage resp) (htok : tokenOf resp.body = none) :
    fetch_videos_go cid tok acc (resp :: rest) =
      ([Event.searchRequest cid tok], ListerOutcome.ok (acc ++ pageItems resp.body)) := by
  obtain ⟨hst, herr⟩ := hg
  simp [fetch_videos_go, hst, herr, htok]

theorem go_cons_good_some (cid tok t : String) (acc : List Json) (resp : Response)
    (rest : List Response) (hg : goodPage resp) (htok : tokenOf resp.body = some t) :
    fetch_videos_go cid tok acc (resp :: rest) =
      (Event.searchRequest cid tok ::
         (fetch_videos_go cid t (acc ++ pageItems resp.body) rest).1,
       (fetch_videos_go cid t (acc ++ pageItems resp.body) rest).2) := by
  obtain ⟨hst, herr⟩ := hg
  simp [fetch_videos_go, hst, herr, htok]

/-! ## A well-behaved paginating server

For claim C1 we model the server as an arbitrary video list split into
pages of at most 50 items, every page but the last carrying a
`nextPageToken`. -/

/-- A successful search-endpoint page: status 200, an `items` array, and a
`nextPageToken` field exactly when `tok` is `some`. -/
def mkPage (items : List Json) (tok : Option String) : Response :=
  { status := 200
  , body := Json.obj
      (("items", Json.arr items) ::
        (match tok with
         | some t => [("nextPageToken", Json.str t)]
         | none => [])) }

theorem mkPage_good (items : List Json) (tok : Option String) :
    goodPage (mkPage items tok) := by
  cases tok <;> exact ⟨rfl, rfl⟩

theorem pageItems_mkPage (items : List Json) (tok : Option String) :
    pageItems (mkPage items tok).body = items := by
  cases tok <;> rfl

theorem tokenOf_mkPage (items : List Json) (tok : Option String) :
    tokenOf (mkPage items tok).body = tok := by
  cases tok <;> rfl

/-- Split a video list into successive pages of 50 (the last page holding
the at most 50 remaining items and no `nextPageToken`). -/
def chunkPages (vs : List Json) : List Response :=
  if _h : vs.length ≤ 50 then [mkPage vs none]
  else mkPage (vs.take 50) (some "tok") :: chunkPages (vs.drop 50)
termination_by vs.length
decreasing_by simp only [List.length_drop]; omega

theorem chunkPages_small {vs : List Json} (h : vs.length ≤ 50) :
    chunkPages vs = [mkPage vs none] := by
  unfold chunkPages; rw [dif_pos h]

theorem chunkPages_large {vs : List Json} (h : ¬ vs.length ≤ 50) :
    chunkPages vs = mkPage (vs.take 50) (some "tok") :: chunkPages (vs.drop 50) := by
  conv_lhs => unfold chunkPages
  rw [dif_neg h]

theorem chunkPages_length (vs : List Json) :
    (chunkPages vs).length = (vs.length - 1) / 50 + 1 := by
  generalize hn : vs.length = n
  induction n using Nat.strong_induction_on generalizing vs with
  | _ n ih =>
    by_cases h : vs.length ≤ 50
    · rw [chunkPages_small h]
      simp only [List.length_cons, List.length_nil]
      omega
    · rw [chunkPages_large h]
      have hd : (vs.drop 50).length = n - 50 := by
        simp [List.length_drop, hn]
      have := ih (n - 50) (by omega) (vs.drop 50) hd
      simp only [List.length_cons, this]
      omega

/-- Running the loop over `chunkPages vs` (with anything appended after)
consumes exactly the chunked pages, never touches the appended suffix, and
accumulates exactly `vs`: the trace is one request per chunk and the
outcome is `ok (acc ++ vs)`. -/
theorem fetch_videos_go_chunk (cid : String) (vs : List Json) :
    ∀ (tok : String) (acc : List Json) (extra : List Response),
      fetch_videos_go cid tok acc (chunkPages vs ++ extra) =
        (Event.searchRequest cid tok ::
           List.replicate ((chunkPages vs).length - 1) (Event.searchRequest cid "tok"),
         ListerOutcome.ok (acc ++ vs)) := by
  generalize hn : vs.length = n
  induction n using Nat.strong_induction_on generalizing vs with
  | _ n ih =>
    intro tok acc extra
    by_cases h : vs.length ≤ 50
    · rw [chunkPages_small h]
      rw [List.singleton_append,
        go_cons_good_none cid tok acc _ extra (mkPage_good vs none)
          (tokenOf_mkPage vs none)]
      simp [pageItems_mkPage]
    · rw [chunkPages_large h]
      have hd : (vs.drop 50).length = n - 50 := by
        simp [List.length_drop, hn]
      rw [List.cons_append,
        go_cons_good_some cid tok "tok" acc _ _
          (mkPage_good (vs.take 50) (some "tok"))
          (tokenOf_mkPage (vs.take 50) (some "tok"))]
      simp only [pageItems_mkPage]
      rw [ih (n - 50) (by omega) (vs.drop 50) hd "tok" (acc ++ vs.take 50) extra]
      have hlen : 1 ≤ (chunkPages (vs.drop 50)).length := by
        rw [chunkPages_length]; omega
      refine Prod.ext ?_ ?_
      · simp only [List.length_cons]
        congr 1
        rw [Nat.add_sub_cancel]
        rw [← List.replicate_succ]
        congr 1
        omega
      · simp [List.append_assoc]

/-- C1: for a multi-page result set served as pages of 50 (`chunkPages`),
`fetch_videos` returns all items concatenated in arrival order with no
duplicates or omissions (the result is exactly `vs`), issues exactly
`⌈vs.length / 50⌉` requests, and terminates exactly at the first response
with no `nextPageToken`: any responses the server could offer beyond the
chunked pages are never requested and do not change the outcome. -/
theorem c1_pagination_exact (cid : String) (vs : List Json) (hvs : vs ≠ []) :
    (fetch_videos cid (chunkPages vs)).2 = ListerOutcome.ok vs ∧
    (fetch_videos cid (chunkPages vs)).1.length = (vs.length + 49) / 50 ∧
    ∀ extra : List Response,
      fetch_videos cid (chunkPages vs ++ extra) = fetch_videos cid (chunkPages vs) := by
  have hbase := fetch_videos_go_chunk cid vs "" []
  have hnil := hbase []
  rw [List.append_nil] at hnil
  have hpos : 1 ≤ vs.length := List.length_pos.mpr hvs
  refine ⟨?_, ?_, ?_⟩
  · rw [show fetch_videos cid (chunkPages vs) = fetch_videos_go cid "" [] (chunkPages vs) from rfl,
      hnil]
    simp
  · rw [show fetch_videos cid (chunkPages vs) = fetch_videos_go cid "" [] (chunkPages vs) from rfl,
      hnil]
    simp only [List.length_cons, List.length_replicate, chunkPages_length]
    omega
  · intro extra
    rw [show fetch_videos cid (chunkPages vs ++ extra) =
          fetch_videos_go cid "" [] (chunkPages vs ++ extra) from rfl,
      show fetch_videos cid (chunkPages vs) = fetch_videos_go cid "" [] (chunkPages vs) from rfl,
      hbase extra, hnil]

/-- Witness for C1 at a concrete 120-item result set: 3 requests, all 120
items returned in order. -/
theorem c1_pagination_exact_witness :
    (fetch_videos "c" (chunkPages (List.replicate 120 (Json.str "v")))).2 =
        ListerOutcome.ok (List.replicate 120 (Json.str "v")) ∧
    (fetch_videos "c" (chunkPages (List.replicate 120 (Json.str "v")))).1.length = 3 := by
  obtain ⟨h1, h2, _⟩ :=
    c1_pagination_exact "c" (List.replicate 120 (Json.str "v")) (by simp)
  exact ⟨h1, by rw [h2]; simp⟩

/-- C10: a successful page whose `items` field is absent or not an array is
not an error: it contributes zero items to the accumulator, and the loop
stops when `nextPageToken` is absent or continues (with `acc` unchanged)
when it is present. -/
theorem c10_itemless_page_not_error (cid tok : String) (acc : List Json)
    (resp : Response) (rest : List Response) (hg : goodPage resp)
    (hitems : (resp.body.index "items").asArray = none) :
    (tokenOf resp.body = none →
       fetch_videos_go cid tok acc (resp :: rest) =
         ([Event.searchRequest cid tok], ListerOutcome.ok acc)) ∧
    (∀ t, tokenOf resp.body = some t →
       fetch_videos_go cid tok acc (resp :: rest) =
         (Event.searchRequest cid tok :: (fetch_videos_go cid t acc rest).1,
          (fetch_videos_go cid t acc rest).2)) := by
  have hempty : pageItems resp.body = [] := by
    unfold pageItems
    rw [hitems]
    rfl
  constructor
  · intro htok
    rw [go_cons_good_none cid tok acc resp rest hg htok, hempty, List.append_nil]
  · intro t htok
    rw [go_cons_good_some cid tok t acc resp rest hg htok, hempty, List.append_nil]

/-- Witness for C10: a token-less page with no `items` field yields
`ok []`, and a token-bearing page with non-array `items` continues the loop
with the accumulator unchanged. -/
theorem c10_itemless_page_not_error_witness :
    fetch_videos_go "c" "" []
        [{ status := 200, body := Json.obj [("kind", Json.str "x")] }] =
      ([Event.searchRequest "c" ""], ListerOutcome.ok []) ∧
    fetch_videos_go "c" "" []
        [{ status := 200,
           body := Json.obj [("items", Json.str "oops"),
                             ("nextPageToken", Json.str "t2")] }] =
      (Event.searchRequest "c" "" :: (fetch_videos_go "c" "t2" [] []).1,
       (fetch_videos_go "c" "t2" [] []).2) := by
  constructor
  · exact (c10_itemless_page_not_error "c" "" []
      { status := 200, body := Json.obj [("kind", Json.str "x")] } []
      ⟨rfl, rfl⟩ rfl).1 rfl
  · exact (c10_itemless_page_not_error "c" "" []
      { status := 200,
        body := Json.obj [("items", Json.str "oops"),
                          ("nextPageToken", Json.str "t2")] } []
      ⟨rfl, rfl⟩ rfl).2 "t2" rfl

/-! ## Characterization of `fetch_channel_id` and `run_main` -/

theorem fetch_channel_id_badStatus (resp : Response)
    (hst : statusIsSuccess resp.status = false) :
    fetch_channel_id resp = ResolverResult.err "API request failed" := by
  simp [fetch_channel_id, hst]

theorem fetch_channel_id_errField (resp : Response)
    (hst : statusIsSuccess resp.status = true)
    (herr : (resp.body.get "error").isSome = true) :
    fetch_channel_id resp = ResolverResult.err "Error" := by
  simp [fetch_channel_id, hst, herr]

theorem fetch_channel_id_ok (resp : Response) (s : String)
    (hst : statusIsSuccess resp.status = true)
    (herr : resp.body.get "error" = none)
    (hex : resolverExtract resp.body = some s) :
    fetch_channel_id resp = ResolverResult.ok s := by
  simp [fetch_channel_id, hst, herr, hex]

theorem fetch_channel_id_panic (resp : Response)
    (hst : statusIsSuccess resp.status = true)
    (herr : resp.body.get "error" = none)
    (hex : resolverExtract resp.body = none) :
    fetch_channel_id resp = ResolverResult.panic := by
  simp [fetch_channel_id, hst, herr, hex]

theorem run_main_resolver_err (handle m : String) (env : Env)
    (hres : fetch_channel_id env.channelResp = ResolverResult.err m) :
    run_main handle env = ⟨[Event.channelsRequest handle], MainResult.err m, none⟩ := by
  simp [run_main, hres]

theorem run_main_lister_err (handle cid m : String) (env : Env)
    (hres : fetch_channel_id env.channelResp = ResolverResult.ok cid)
    (hlist : (fetch_videos cid env.searchResps).2 = ListerOutcome.err m) :
    run_main handle env =
      ⟨Event.channelsRequest handle :: (fetch_videos cid env.searchResps).1,
       MainResult.mainOk, none⟩ := by
  simp [run_main, hres, hlist]

theorem run_main_lister_empty (handle cid : String) (env : Env)
    (hres : fetch_channel_id env.channelResp = ResolverResult.ok cid)
    (hlist : (fetch_videos cid env.searchResps).2 = ListerOutcome.ok []) :
    run_main handle env =
      ⟨Event.channelsRequest handle :: (fetch_videos cid env.searchResps).1,
       MainResult.mainOk, none⟩ := by
  simp [run_main, hres, hlist]

theorem run_main_writes (handle cid : String) (videos : List Json) (env : Env)
    (hres : fetch_channel_id env.channelResp = ResolverResult.ok cid)
    (hlist : (fetch_videos cid env.searchResps).2 = ListerOutcome.ok videos)
    (hne : videos ≠ []) (hw : env.writeSucceeds = true) :
    run_main handle env =
      ⟨Event.channelsRequest handle :: (fetch_videos cid env.searchResps).1,
       MainResult.mainOk, some (write_to_csv handle videos)⟩ := by
  simp [run_main, hres, hlist, hne, hw]

theorem run_main_write_fails (handle cid : String) (videos : List Json) (env : Env)
    (hres : fetch_channel_id env.channelResp = ResolverResult.ok cid)
    (hlist : (fetch_videos cid env.searchResps).2 = ListerOutcome.ok videos)
    (hne : videos ≠ []) (hw : env.writeSucceeds = false) :
    run_main handle env =
      ⟨Event.channelsRequest handle :: (fetch_videos cid env.searchResps).1,
       MainResult.err "write failed", none⟩ := by
  simp [run_main, hres, hlist, hne, hw]

/-! ## Error behaviour of the pagination loop -/

/-- A bad page reached after a prefix of good token-bearing pages makes the
whole loop fail. -/
theorem fetch_videos_go_err_of_bad (cid : String) (pre : List Response) :
    ∀ (tok : String) (acc : List Json) (bad : Response) (rest : List Response),
      (∀ p ∈ pre, goodPage p ∧ (tokenOf p.body).isSome = true) →
      ¬ goodPage bad →
      ∃ m, (fetch_videos_go cid tok acc (pre ++ bad :: rest)).2 = ListerOutcome.err m := by
  induction pre with
  | nil =>
    intro tok acc bad rest _ hbad
    rw [List.nil_append]
    by_cases hst : statusIsSuccess bad.status
    · have herr : (bad.body.get "error").isSome = true := by
        rcases h : bad.body.get "error" with _ | v
        · exact absurd ⟨hst, h⟩ hbad
        · rfl
      exact ⟨"Error", by rw [go_cons_errField cid tok acc bad rest hst herr]⟩
    · exact ⟨"API request failed",
        by rw [go_cons_badStatus cid tok acc bad rest (by simpa using hst)]⟩
  | cons p pre ih =>
    intro tok acc bad rest hpre hbad
    obtain ⟨hg, hsome⟩ := hpre p (List.mem_cons_self p pre)
    obtain ⟨t, ht⟩ := Option.isSome_iff_exists.mp hsome
    rw [List.cons_append, go_cons_good_some cid tok t acc p _ hg ht]
    exact ih t (acc ++ pageItems p.body) bad rest
      (fun q hq => hpre q (List.mem_cons_of_mem p hq)) hbad

/-- Over good pages only, the loop never returns an error. -/
theorem fetch_videos_go_no_err (cid : String) (pages : List Response) :
    ∀ (tok : String) (acc : List Json),
      (∀ p ∈ pages, goodPage p) →
      ∀ m, (fetch_videos_go cid tok acc pages).2 ≠ ListerOutcome.err m := by
  induction pages with
  | nil =>
    intro tok acc _ m
    simp [fetch_videos_go]
  | cons p pages ih =>
    intro tok acc hall m
    have hg := hall p (List.mem_cons_self p pages)
    rcases ht : tokenOf p.body with _ | t
    · rw [go_cons_good_none cid tok acc p pages hg ht]
      simp
    · rw [go_cons_good_some cid tok t acc p pages hg ht]
      exact ih t (acc ++ pageItems p.body) (fun q hq => hall q (List.mem_cons_of_mem p hq)) m

/-! ## Concrete fixtures -/

/-- A successful channel-lookup response resolving to `UC123`. -/
def goodChannelResp : Response :=
  ⟨200, Json.obj [("items", Json.arr [Json.obj [("id", Json.str "UC123")]])]⟩

/-- A failed response: HTTP 403 with an empty body. -/
def badSearchResp : Response :=
  ⟨403, Json.obj []⟩

/-- C2 counterexample: with a resolvable channel and a single successful
zero-item page, the run succeeds with zero videos but writes NO output
file at all (`main` skips `write_to_csv` when the list is empty), contrary
to the claim that a header-only file is still produced. -/
theorem c2_counterexample :
    (fetch_videos "UC123" [mkPage [] none]).2 = ListerOutcome.ok [] ∧
    (run_main "h" ⟨goodChannelResp, [mkPage [] none], true⟩).result = MainResult.mainOk ∧
    (run_main "h" ⟨goodChannelResp, [mkPage [] none], true⟩).file = none :=
  ⟨rfl, rfl, rfl⟩

/-- C2 amended: for a channel with zero videos the program writes no
output file and exits successfully; the writer itself, had it been
invoked, would have produced only the four-column header row. -/
theorem c2_zero_videos_no_file (handle cid : String) (env : Env)
    (hres : fetch_channel_id env.channelResp = ResolverResult.ok cid)
    (hlist : (fetch_videos cid env.searchResps).2 = ListerOutcome.ok []) :
    (run_main handle env).file = none ∧
    (run_main handle env).result = MainResult.mainOk ∧
    (write_to_csv handle []).rows = [csvHeader] := by
  rw [run_main_lister_empty handle cid env hres hlist]
  exact ⟨rfl, rfl, rfl⟩

/-- Witness for the amended C2 at a concrete environment. -/
theorem c2_zero_videos_no_file_witness :
    (run_main "h" ⟨goodChannelResp, [mkPage [] none], true⟩).file = none ∧
    (run_main "h" ⟨goodChannelResp, [mkPage [] none], true⟩).result = MainResult.mainOk ∧
    (write_to_csv "h" []).rows = [csvHeader] :=
  c2_zero_videos_no_file "h" "UC123" ⟨goodChannelResp, [mkPage [] none], true⟩ rfl rfl

/-- C3: a failing request anywhere in the pagination loop (after any
prefix of good, token-bearing pages) makes `fetch_videos` return only an
error — the accumulated items are not returned in any form — and the run
writes no CSV file. -/
theorem c3_lister_failure_discards_all (handle cid : String) (env : Env)
    (pre : List Response) (bad : Response) (rest : List Response)
    (hres : fetch_channel_id env.channelResp = ResolverResult.ok cid)
    (hpages : env.searchResps = pre ++ bad :: rest)
    (hpre : ∀ p ∈ pre, goodPage p ∧ (tokenOf p.body).isSome = true)
    (hbad : ¬ goodPage bad) :
    (∃ m, (fetch_videos cid env.searchResps).2 = ListerOutcome.err m) ∧
    (∀ videos, (fetch_videos cid env.searchResps).2 ≠ ListerOutcome.ok videos) ∧
    (run_main handle env).file = none := by
  obtain ⟨m, hm⟩ : ∃ m, (fetch_videos cid env.searchResps).2 = ListerOutcome.err m := by
    rw [hpages]
    exact fetch_videos_go_err_of_bad cid pre "" [] bad rest hpre hbad
  refine ⟨⟨m, hm⟩, ?_, ?_⟩
  · intro videos h
    rw [hm] at h
    exact ListerOutcome.noConfusion h
  · rw [run_main_lister_err handle cid m env hres hm]

/-- Witness for C3: one good page with 1 item followed by an HTTP 403
page; the item is dropped and no file is written. -/
theorem c3_lister_failure_discards_all_witness :
    (∃ m, (fetch_videos "UC123"
        [mkPage [Json.str "v1"] (some "t"), badSearchResp]).2 = ListerOutcome.err m) ∧
    (fetch_videos "UC123"
        [mkPage [Json.str "v1"] (some "t"), badSearchResp]).2 ≠
      ListerOutcome.ok [Json.str "v1"] ∧
    (run_main "h" ⟨goodChannelResp,
        [mkPage [Json.str "v1"] (some "t"), badSearchResp], true⟩).file = none := by
  have h := c3_lister_failure_discards_all "h" "UC123"
    ⟨goodChannelResp, [mkPage [Json.str "v1"] (some "t"), badSearchResp], true⟩
    [mkPage [Json.str "v1"] (some "t")] badSearchResp [] rfl rfl
    (by
      intro p hp
      rw [List.mem_singleton] at hp
      subst hp
      exact ⟨mkPage_good _ _, rfl⟩)
    (fun hg => absurd hg.1 (by decide))
  exact ⟨h.1, h.2.1 [Json.str "v1"], h.2.2⟩

/-- C4 counterexample: a run whose lister fails (an error path) ends with
`main` returning `Ok(())` — exit code zero — because `main` catches the
lister error, prints it, and falls through to success. -/
theorem c4_counterexample :
    (∃ m, (fetch_videos "UC123" [badSearchResp]).2 = ListerOutcome.err m) ∧
    (run_main "h" ⟨goodChannelResp, [badSearchResp], true⟩).result = MainResult.mainOk :=
  ⟨⟨"API request failed", rfl⟩, rfl⟩

/-- C4 amended: a resolver failure or a writer failure propagates out of
`main` as an `Err` (non-zero exit, with no distinct codes per error kind),
but a lister failure is caught and printed and the process exits
successfully. -/
theorem c4_error_paths (handle : String) (env : Env) :
    (∀ m, fetch_channel_id env.channelResp = ResolverResult.err m →
       (run_main handle env).result = MainResult.err m) ∧
    (∀ cid videos, fetch_channel_id env.channelResp = ResolverResult.ok cid →
       (fetch_videos cid env.searchResps).2 = ListerOutcome.ok videos →
       videos ≠ [] → env.writeSucceeds = false →
       (run_main handle env).result = MainResult.err "write failed") ∧
    (∀ cid m, fetch_channel_id env.channelResp = ResolverResult.ok cid →
       (fetch_videos cid env.searchResps).2 = ListerOutcome.err m →
       (run_main handle env).result = MainResult.mainOk) := by
  refine ⟨?_, ?_, ?_⟩
  · intro m hres
    rw [run_main_resolver_err handle m env hres]
  · intro cid videos hres hlist hne hw
    rw [run_main_write_fails handle cid videos env hres hlist hne hw]
  · intro cid m hres hlist
    rw [run_main_lister_err handle cid m env hres hlist]

/-- Witness for the amended C4: the three error paths at concrete
environments — resolver failure and writer failure yield `Err`, lister
failure yields `Ok`. -/
theorem c4_error_paths_witness :
    (run_main "h" ⟨badSearchResp, [], true⟩).result =
      MainResult.err "API request failed" ∧
    (run_main "h" ⟨goodChannelResp, [mkPage [Json.str "v1"] none], false⟩).result =
      MainResult.err "write failed" ∧
    (run_main "h" ⟨goodChannelResp, [badSearchResp], true⟩).result =
      MainResult.mainOk := by
  refine ⟨?_, ?_, ?_⟩
  · exact (c4_error_paths "h" ⟨badSearchResp, [], true⟩).1 "API request failed" rfl
  · exact (c4_error_paths "h" ⟨goodChannelResp, [mkPage [Json.str "v1"] none], false⟩).2.1
      "UC123" [Json.str "v1"] rfl rfl (by simp) rfl
  · exact (c4_error_paths "h" ⟨goodChannelResp, [badSearchResp], true⟩).2.2
      "UC123" "API request failed" rfl rfl

/-- C7: when the channel-resolution response has a non-success status, the
run's request trace is exactly the one channel-lookup request — no search
request is ever issued. -/
theorem c7_resolver_failure_blocks_search (handle : String) (env : Env)
    (hst : statusIsSuccess env.channelResp.status = false) :
    (run_main handle env).events = [Event.channelsRequest handle] ∧
    ∀ cid tok, Event.searchRequest cid tok ∉ (run_main handle env).events := by
  have hres := fetch_channel_id_badStatus env.channelResp hst
  rw [run_main_resolver_err handle _ env hres]
  refine ⟨rfl, ?_⟩
  intro cid tok h
  simp at h

/-- Witness for C7 at a concrete failing resolver response. -/
theorem c7_resolver_failure_blocks_search_witness :
    (run_main "h" ⟨badSearchResp, [], true⟩).events = [Event.channelsRequest "h"] ∧
    Event.searchRequest "UC123" "" ∉ (run_main "h" ⟨badSearchResp, [], true⟩).events := by
  have h := c7_resolver_failure_blocks_search "h" ⟨badSearchResp, [], true⟩ rfl
  exact ⟨h.1, h.2 "UC123" ""⟩

/-- C9: given a well-shaped body, the resolver fails exactly when the
status is non-success or the body carries an `error` field; the lister
never fails over good pages, and fails as soon as a page has a non-success
status or an `error` field. -/
theorem c9_fail_iff_status_or_error (resp : Response) (cid : String) :
    (∀ s, resolverExtract resp.body = some s →
       ((∃ m, fetch_channel_id resp = ResolverResult.err m) ↔
         (statusIsSuccess resp.status = false ∨ (resp.body.get "error").isSome = true))) ∧
    (∀ pages : List Response, (∀ p ∈ pages, goodPage p) →
       ∀ m, (fetch_videos cid pages).2 ≠ ListerOutcome.err m) ∧
    (∀ (pre : List Response) (bad : Response) (rest : List Response),
       (∀ p ∈ pre, goodPage p ∧ (tokenOf p.body).isSome = true) → ¬ goodPage bad →
       ∃ m, (fetch_videos cid (pre ++ bad :: rest)).2 = ListerOutcome.err m) := by
  refine ⟨?_, ?_, ?_⟩
  · intro s hs
    constructor
    · rintro ⟨m, hm⟩
      by_contra hcon
      push_neg at hcon
      obtain ⟨h1, h2⟩ := hcon
      have hst : statusIsSuccess resp.status = true := by
        cases h : statusIsSuccess resp.status
        · exact absurd h h1
        · rfl
      have herr : resp.body.get "error" = none := by
        cases h : resp.body.get "error"
        · rfl
        · rw [h] at h2
          exact absurd rfl h2
      rw [fetch_channel_id_ok resp s hst herr hs] at hm
      exact ResolverResult.noConfusion hm
    · rintro (h | h)
      · exact ⟨"API request failed", fetch_channel_id_badStatus resp h⟩
      · by_cases hst : statusIsSuccess resp.status
        · exact ⟨"Error", fetch_channel_id_errField resp hst h⟩
        · exact ⟨"API request failed",
            fetch_channel_id_badStatus resp (by simpa using hst)⟩
  · exact fun pages h m => fetch_videos_go_no_err cid pages "" [] h m
  · exact fun pre bad rest hpre hbad =>
      fetch_videos_go_err_of_bad cid pre "" [] bad rest hpre hbad

/-- Witness for C9: a success-status resolver body carrying an `error`
field fails; a single good page never yields a lister error; a 403 first
page yields a lister error. -/
theorem c9_fail_iff_status_or_error_witness :
    (∃ m, fetch_channel_id
        ⟨200, Json.obj [("error", Json.str "quota"),
                        ("items", Json.arr [Json.obj [("id", Json.str "UC1")]])]⟩ =
      ResolverResult.err m) ∧
    (fetch_videos "c" [mkPage [] none]).2 ≠ ListerOutcome.err "Error" ∧
    (∃ m, (fetch_videos "c" ([] ++ badSearchResp :: [])).2 = ListerOutcome.err m) := by
  refine ⟨?_, ?_, ?_⟩
  · exact ((c9_fail_iff_status_or_error
      ⟨200, Json.obj [("error", Json.str "quota"),
                      ("items", Json.arr [Json.obj [("id", Json.str "UC1")]])]⟩ "c").1
      "UC1" rfl).mpr (Or.inr rfl)
  · exact (c9_fail_iff_status_or_error badSearchResp "c").2.1 [mkPage [] none]
      (by
        intro p hp
        rw [List.mem_singleton] at hp
        subst hp
        exact mkPage_good _ _) "Error"
  · exact (c9_fail_iff_status_or_error badSearchResp "c").2.2 [] badSearchResp []
      (by intro p hp; exact absurd hp (List.not_mem_nil p))
      (fun hg => absurd hg.1 (by decide))

/-! ## File naming (C5) -/

/-- Replacing a single-character pattern by the empty string removes every
occurrence of that character. -/
theorem replaceAll_single_char (a : Char) (s : List Char) :
    replaceAll [a] [] s = s.filter (fun c => !(c == a)) := by
  induction s with
  | nil => simp [replaceAll]
  | cons c s ih =>
    unfold replaceAll
    by_cases hc : c = a
    · subst hc
      rw [if_pos ⟨by simp, by simp [List.isPrefixOf]⟩]
      simpa using ih
    · rw [if_neg]
      · simp [List.filter_cons, hc, ih]
      · rintro ⟨-, hpre⟩
        simp [List.isPrefixOf] at hpre
        exact hc hpre.symm

/-- C5 counterexample: for the handle `"a@b"` (no leading `@`), the claim
says the base name is used unchanged, i.e. the file would be `"a@b.csv"`;
the code removes every `@`, producing `"ab.csv"`. -/
theorem c5_counterexample :
    csv_path "a@b" = "ab.csv" ∧ "ab.csv" ≠ "a@b.csv" := by
  constructor
  · unfold csv_path
    rw [replaceAll_single_char]
    decide
  · decide

/-- C5 amended: the output file name is the handle with EVERY `@` removed
(not only a leading one) and `.csv` appended; in particular a handle
containing no `@` at all is used unchanged as the base name. -/
theorem c5_filename (handle : String) :
    csv_path handle = String.mk (handle.data.filter (fun c => !(c == '@'))) ++ ".csv" ∧
    ((∀ c ∈ handle.data, c ≠ '@') → csv_path handle = handle ++ ".csv") := by
  obtain ⟨d⟩ := handle
  have hbase : csv_path ⟨d⟩ = String.mk (d.filter (fun c => !(c == '@'))) ++ ".csv" := by
    unfold csv_path
    rw [replaceAll_single_char]
  refine ⟨hbase, ?_⟩
  intro hno
  rw [hbase, List.filter_eq_self.mpr ?_]
  intro c hc
  simpa using hno c hc

/-- Witness for the amended C5: an `@`-free handle is used unchanged. -/
theorem c5_filename_witness :
    csv_path "abc" = String.mk ("abc".data.filter (fun c => !(c == '@'))) ++ ".csv" ∧
    csv_path "abc" = "abc" ++ ".csv" :=
  ⟨(c5_filename "abc").1, (c5_filename "abc").2 (by decide)⟩

/-! ## Record extraction (C6) -/

/-- The source JSON path `video["id"]["videoId"]`, as a string. -/
def videoIdField (video : Json) : Option String :=
  ((video.index "id").index "videoId").asStr

/-- The source JSON path `video["snippet"]["title"]`, as a string. -/
def titleField (video : Json) : Option String :=
  ((video.index "snippet").index "title").asStr

/-- The source JSON path `video["snippet"]["description"]`, as a string. -/
def descriptionField (video : Json) : Option String :=
  ((video.index "snippet").index "description").asStr

/-- The source JSON path `video["snippet"]["publishedAt"]`, as a string. -/
def publishedAtField (video : Json) : Option String :=
  ((video.index "snippet").index "publishedAt").asStr

/-- C6: each of the four fields present as a string in the source JSON
appears verbatim in the corresponding cell of that video's CSV row, each
absent (or non-string) field appears as the empty cell, and the row itself
is among the written rows — no input shape makes the writer fail. -/
theorem c6_record_roundtrip (handle : String) (videos : List Json) (video : Json)
    (hv : video ∈ videos) :
    video_record video ∈ (write_to_csv handle videos).rows ∧
    (∀ s, videoIdField video = some s → (video_record video).get? 0 = some s) ∧
    (videoIdField video = none → (video_record video).get? 0 = some "") ∧
    (∀ s, titleField video = some s → (video_record video).get? 1 = some s) ∧
    (titleField video = none → (video_record video).get? 1 = some "") ∧
    (∀ s, descriptionField video = some s → (video_record video).get? 2 = some s) ∧
    (descriptionField video = none → (video_record video).get? 2 = some "") ∧
    (∀ s, publishedAtField video = some s → (video_record video).get? 3 = some s) ∧
    (publishedAtField video = none → (video_record video).get? 3 = some "") := by
  refine ⟨List.mem_cons_of_mem _ (List.mem_map_of_mem video_record hv),
    ?_, ?_, ?_, ?_, ?_, ?_, ?_, ?_⟩ <;>
    first
    | (intro s hs
       simp only [video_record, videoIdField, titleField, descriptionField,
         publishedAtField] at hs ⊢
       rw [hs]
       rfl)
    | (intro hs
       simp only [video_record, videoIdField, titleField, descriptionField,
         publishedAtField] at hs ⊢
       rw [hs]
       rfl)

/-- Witness for C6 at a synthetic fixture whose `title` and `publishedAt`
are present and whose `videoId` and `description` are absent. -/
theorem c6_record_roundtrip_witness :
    video_record
        (Json.obj [("id", Json.obj []),
          ("snippet", Json.obj [("title", Json.str "My Title"),
            ("publishedAt", Json.str "2024-01-01T00:00:00Z")])]) ∈
      (write_to_csv "h"
        [Json.obj [("id", Json.obj []),
          ("snippet", Json.obj [("title", Json.str "My Title"),
            ("publishedAt", Json.str "2024-01-01T00:00:00Z")])]]).rows ∧
    (video_record
        (Json.obj [("id", Json.obj []),
          ("snippet", Json.obj [("title", Json.str "My Title"),
            ("publishedAt", Json.str "2024-01-01T00:00:00Z")])])).get? 0 = some "" ∧
    (video_record
        (Json.obj [("id", Json.obj []),
          ("snippet", Json.obj [("title", Json.str "My Title"),
            ("publishedAt", Json.str "2024-01-01T00:00:00Z")])])).get? 1 = some "My Title" ∧
    (video_record
        (Json.obj [("id", Json.obj []),
          ("snippet", Json.obj [("title", Json.str "My Title"),
            ("publishedAt", Json.str "2024-01-01T00:00:00Z")])])).get? 2 = some "" ∧
    (video_record
        (Json.obj [("id", Json.obj []),
          ("snippet", Json.obj [("title", Json.str "My Title"),
            ("publishedAt", Json.str "2024-01-01T00:00:00Z")])])).get? 3 =
      some "2024-01-01T00:00:00Z" := by
  have h := c6_record_roundtrip "h"
    [Json.obj [("id", Json.obj []),
      ("snippet", Json.obj [("title", Json.str "My Title"),
        ("publishedAt", Json.str "2024-01-01T00:00:00Z")])]]
    (Json.obj [("id", Json.obj []),
      ("snippet", Json.obj [("title", Json.str "My Title"),
        ("publishedAt", Json.str "2024-01-01T00:00:00Z")])])
    (List.mem_singleton.mpr rfl)
  exact ⟨h.1, h.2.2.1 rfl, h.2.2.2.1 "My Title" rfl, h.2.2.2.2.2.2.1 rfl,
    h.2.2.2.2.2.2.2.1 "2024-01-01T00:00:00Z" rfl⟩

/-! ## Unchecked resolver extraction (C8) -/

/-- C8: on a successful, error-free resolver response, an empty `items`
array — or any shape whose first item lacks a string `id` — makes
`fetch_channel_id` panic rather than return a value; when `items[0].id` is
a present string the extraction returns it and cannot panic. -/
theorem c8_resolver_panic_behaviour (resp : Response)
    (hst : statusIsSuccess resp.status = true)
    (herr : resp.body.get "error" = none) :
    (resolverExtract resp.body = none → fetch_channel_id resp = ResolverResult.panic) ∧
    (resp.body.index "items" = Json.arr [] → fetch_channel_id resp = ResolverResult.panic) ∧
    (∀ s, resolverExtract resp.body = some s →
       fetch_channel_id resp = ResolverResult.ok s ∧
       fetch_channel_id resp ≠ ResolverResult.panic) := by
  refine ⟨fun hex => fetch_channel_id_panic resp hst herr hex, ?_, ?_⟩
  · intro hitems
    apply fetch_channel_id_panic resp hst herr
    unfold resolverExtract
    rw [hitems]
    rfl
  · intro s hex
    rw [fetch_channel_id_ok resp s hst herr hex]
    exact ⟨rfl, fun h => ResolverResult.noConfusion h⟩

/-- Witness for C8: an empty `items` array panics; `goodChannelResp`
resolves to `UC123` and does not panic. -/
theorem c8_resolver_panic_behaviour_witness :
    fetch_channel_id ⟨200, Json.obj [("items", Json.arr [])]⟩ = ResolverResult.panic ∧
    fetch_channel_id goodChannelResp = ResolverResult.ok "UC123" ∧
    fetch_channel_id goodChannelResp ≠ ResolverResult.panic := by
  refine ⟨?_, ?_, ?_⟩
  · exact (c8_resolver_panic_behaviour ⟨200, Json.obj [("items", Json.arr [])]⟩
      rfl rfl).2.1 rfl
  · exact ((c8_resolver_panic_behaviour goodChannelResp rfl rfl).2.2 "UC123" rfl).1
  · exact ((c8_resolver_panic_behaviour goodChannelResp rfl rfl).2.2 "UC123" rfl).2

end YtCsv
